import Mathlib

/-!
Shallow embedding of the chat widget in `src/client/src/components/chat/Chat.tsx`.

The component state is the tuple of `useState` hooks: the message list, the
optional server-assigned conversation identifier, the two mode flags
(`isConfirmed`, `isAwaitingConfirmation`) and the in-flight flag `isLoading`.
The three event handlers `handleSendMessage`, `handleConfirmationResponse`
and `handleStartNewConversation` are modelled as pure state-transition
functions.  Nondeterministic inputs of a turn (the ids produced by
`generateId`, the timestamps from `new Date()`, and the outcome of the
`fetch` to the backend) are passed in explicitly.  Each handler also returns
the list of gateway calls it issued, so that "does not call the gateway" is
expressible.  A handler body runs to completion atomically: the in-flight
flag blocks re-entry and every UI control that could fire a second handler
is disabled or not rendered while a request is pending.
-/

/-- Message roles, from `MessageRole = "user" | "assistant"` in `types.ts`. -/
inductive Role where
  | user
  | assistant
  deriving DecidableEq, Repr

/-- A chat message, from the `Message` type in `types.ts` (the optional
`suggestedQueries` field is never set by `Chat.tsx` and is omitted).
Timestamps are modelled as natural numbers. -/
structure Message where
  id : String
  role : Role
  content : String
  timestamp : Nat
  deriving DecidableEq, Repr

/-- Component state: one field per `useState` hook of the `Chat` component
(the text-input box contents are passed to `handleSendMessage` as an
argument instead of being tracked). -/
structure ChatState where
  messages : List Message
  conversationId : Option String
  isConfirmed : Bool
  isAwaitingConfirmation : Bool
  isLoading : Bool
  deriving DecidableEq, Repr

/-- Parsed JSON body of a successful backend reply:
`{ response, conversation_id?, confirmed?, awaiting_confirmation? }`.
Absent boolean fields are JavaScript-falsy, hence `Bool`; the identifier is
kept as `Option String` so that the truthiness test `if (data.conversation_id)`
can be modelled exactly (absent and `""` are both falsy). -/
structure ChatReply where
  response : String
  conversation_id : Option String
  confirmed : Bool
  awaiting_confirmation : Bool
  deriving DecidableEq, Repr

/-- JavaScript truthiness of an optional string: `undefined`/`null` and the
empty string are falsy. -/
def truthy : Option String → Bool
  | none => false
  | some s => !(s == "")

/-- The JSON body `{ message, conversation_id }` POSTed to `${API_URL}/chat`. -/
structure GatewayCall where
  message : String
  conversation_id : Option String
  deriving DecidableEq, Repr

/-- Outcome of one `fetch` to the backend: a parsed 2xx reply, a response
with `response.ok` false (non-2xx status), or a rejected fetch promise. -/
inductive GatewayResult where
  | success (data : ChatReply)
  | httpError (status : Nat)
  | networkError
  deriving DecidableEq, Repr

/-- `true` for the two outcomes that land in the handler's `catch` block. -/
def GatewayResult.failed : GatewayResult → Bool
  | GatewayResult.success _ => false
  | GatewayResult.httpError _ => true
  | GatewayResult.networkError => true

/-- Fresh data consumed by one handler run: the `generateId()` results and
`new Date()` timestamps for the user message and the assistant message. -/
structure Fresh where
  userId : String
  assistantId : String
  userTime : Nat
  assistantTime : Nat
  deriving DecidableEq, Repr

/-- The greeting content of `INITIAL_MESSAGE` in `Chat.tsx`. -/
def initialGreeting : String :=
  "Hello! I\x27m your ASU enrollment data assistant. I can help you query student enrollment information. Just tell me what you\x27d like to know - for example, \x27How many students were enrolled in Fall 2024?\x27 or \x27Show me graduate enrollment trends.\x27"

/-- `INITIAL_MESSAGE` with a given id and timestamp (its id and timestamp are
generated at module load, and regenerated on reset via the spread `...INITIAL_MESSAGE`). -/
def initialMessage (id : String) (t : Nat) : Message :=
  { id := id, role := Role.assistant, content := initialGreeting, timestamp := t }

/-- The initial component state: the `useState` initialisers of `Chat`. -/
def initialState (id : String) (t : Nat) : ChatState :=
  { messages := [initialMessage id t]
    conversationId := none
    isConfirmed := false
    isAwaitingConfirmation := false
    isLoading := false }

/-- The fixed assistant error text appended by `handleSendMessage`'s catch block. -/
def connectionErrorText : String :=
  "Sorry, I encountered an error connecting to the server. Please make sure the backend is running on http://localhost:8000"

/-- `handleStartNewConversation`: replaces the message list with one fresh
greeting, clears the conversation identifier and both mode flags.  `isLoading`
is not touched by the source handler. -/
def handleStartNewConversation (s : ChatState) (newId : String) (newTime : Nat) : ChatState :=
  { s with
    messages := [initialMessage newId newTime]
    conversationId := none
    isConfirmed := false
    isAwaitingConfirmation := false }

/-- JavaScript `input.trim()`: the string with leading and trailing
whitespace characters removed, written by structural recursion on the
character list so that it computes by kernel reduction. -/
def jsTrim (s : String) : String :=
  ⟨((s.data.dropWhile Char.isWhitespace).reverse.dropWhile Char.isWhitespace).reverse⟩

/-- `handleSendMessage`, lines 63-136 of `Chat.tsx`.  `input` is the contents
of the text box at invocation time; `f` supplies the generated ids and
timestamps; `result` is the outcome of the `fetch`.  Returns the new state and
the list of gateway calls issued. -/
def handleSendMessage (s : ChatState) (input : String) (f : Fresh)
    (result : GatewayResult) : ChatState × List GatewayCall :=
  let trimmedInput := jsTrim input
  if trimmedInput = "" ∨ s.isLoading = true then (s, [])
  else
    let userMessage : Message :=
      { id := f.userId, role := Role.user, content := trimmedInput, timestamp := f.userTime }
    let afterUser : ChatState :=
      { s with messages := s.messages ++ [userMessage], isLoading := true }
    let call : GatewayCall := { message := trimmedInput, conversation_id := s.conversationId }
    match result with
    | GatewayResult.success data =>
      let withConv : ChatState :=
        if truthy data.conversation_id then
          { afterUser with conversationId := data.conversation_id }
        else afterUser
      let withFlags : ChatState :=
        if data.confirmed then
          { withConv with isConfirmed := true, isAwaitingConfirmation := false }
        else if data.awaiting_confirmation then
          { withConv with isAwaitingConfirmation := true }
        else
          { withConv with isAwaitingConfirmation := false }
      let assistantMessage : Message :=
        { id := f.assistantId, role := Role.assistant, content := data.response,
          timestamp := f.assistantTime }
      ({ withFlags with
          messages := withFlags.messages ++ [assistantMessage]
          isLoading := false }, [call])
    | _ =>
      let errorMessage : Message :=
        { id := f.assistantId, role := Role.assistant, content := connectionErrorText,
          timestamp := f.assistantTime }
      ({ afterUser with
          messages := afterUser.messages ++ [errorMessage]
          isLoading := false }, [call])

/-- The two confirmation buttons pass `"yes"` or `"no"` to the handler. -/
inductive ConfirmChoice where
  | yes
  | no
  deriving DecidableEq, Repr

/-- The user-visible content of the appended confirmation message:
`response === "yes" ? "Yes" : "No, let me change something"`. -/
def displayedConfirmationText : ConfirmChoice → String
  | ConfirmChoice.yes => "Yes"
  | ConfirmChoice.no => "No, let me change something"

/-- The text sent to the gateway:
`response === "yes" ? "yes" : "I want to change something"`. -/
def sentConfirmationText : ConfirmChoice → String
  | ConfirmChoice.yes => "yes"
  | ConfirmChoice.no => "I want to change something"

/-- `handleConfirmationResponse`, lines 145-195 of `Chat.tsx`.  Note the
differences from `handleSendMessage`: the only guard is `isLoading`, a
successful reply's `conversation_id` is never stored, and the `catch` block
only logs — it appends no message. -/
def handleConfirmationResponse (s : ChatState) (choice : ConfirmChoice) (f : Fresh)
    (result : GatewayResult) : ChatState × List GatewayCall :=
  if s.isLoading = true then (s, [])
  else
    let userMessage : Message :=
      { id := f.userId, role := Role.user, content := displayedConfirmationText choice,
        timestamp := f.userTime }
    let afterUser : ChatState :=
      { s with messages := s.messages ++ [userMessage], isLoading := true }
    let call : GatewayCall :=
      { message := sentConfirmationText choice, conversation_id := s.conversationId }
    match result with
    | GatewayResult.success data =>
      let withFlags : ChatState :=
        if data.confirmed then
          { afterUser with isConfirmed := true, isAwaitingConfirmation := false }
        else
          { afterUser with isAwaitingConfirmation := data.awaiting_confirmation }
      let assistantMessage : Message :=
        { id := f.assistantId, role := Role.assistant, content := data.response,
          timestamp := f.assistantTime }
      ({ withFlags with
          messages := withFlags.messages ++ [assistantMessage]
          isLoading := false }, [call])
    | _ =>
      ({ afterUser with isLoading := false }, [call])

/-- The three-valued UI mode, decoded from the two flags exactly as the
footer renders: `isConfirmed ? … : isAwaitingConfirmation ? … : input`. -/
inductive Mode where
  | composing
  | awaitingConfirmation
  | confirmed
  deriving DecidableEq, Repr

/-- Mode of a state, with the footer's precedence: `isConfirmed` first. -/
def ChatState.mode (s : ChatState) : Mode :=
  if s.isConfirmed then Mode.confirmed
  else if s.isAwaitingConfirmation then Mode.awaitingConfirmation
  else Mode.composing

/-- The confirmed footer (only "Start New Conversation") is rendered. -/
def confirmedFooterRendered (s : ChatState) : Bool := s.isConfirmed

/-- The yes/change/start-over confirmation buttons are rendered: the footer's
`isConfirmed ? … : isAwaitingConfirmation ? buttons : input` chain. -/
def confirmationButtonsRendered (s : ChatState) : Bool :=
  !s.isConfirmed && s.isAwaitingConfirmation

/-- The text input and send button are rendered (composing footer). -/
def inputRendered (s : ChatState) : Bool :=
  !s.isConfirmed && !s.isAwaitingConfirmation

/-- One user-triggerable transition of the running app.  `handleSendMessage`
can only fire from the composing footer (input box and send button, also the
Enter key inside the input); `handleConfirmationResponse` only from the
confirmation buttons; `handleStartNewConversation` is allowed from any state
(a superset of the two footers that actually render a reset button). -/
inductive Step : ChatState → ChatState → Prop where
  | submit : ∀ (s : ChatState) (text : String) (f : Fresh) (r : GatewayResult),
      inputRendered s = true → Step s (handleSendMessage s text f r).1
  | respond : ∀ (s : ChatState) (choice : ConfirmChoice) (f : Fresh) (r : GatewayResult),
      confirmationButtonsRendered s = true → Step s (handleConfirmationResponse s choice f r).1
  | reset : ∀ (s : ChatState) (id : String) (t : Nat),
      Step s (handleStartNewConversation s id t)

/-- States reachable from an initial state by user-triggerable transitions. -/
inductive Reachable : ChatState → Prop where
  | init : ∀ (id : String) (t : Nat), Reachable (initialState id t)
  | step : ∀ (s s2 : ChatState), Reachable s → Step s s2 → Reachable s2

/-! ### Helper lemmas -/

/-- The guard of `handleSendMessage` fails when the trimmed text is nonempty
and no request is in flight. -/
theorem sendMessage_guard_false {s : ChatState} {text : String}
    (hns : ¬ jsTrim text = "") (hnl : s.isLoading = false) :
    ¬ (jsTrim text = "" ∨ s.isLoading = true) := by
  rintro (h | h)
  · exact hns h
  · rw [hnl] at h
    exact Bool.false_ne_true h

/-- The gateway call issued by a non-blocked `handleConfirmationResponse`. -/
theorem confirmationResponse_call_eq (s : ChatState) (choice : ConfirmChoice) (f : Fresh)
    (r : GatewayResult) (hnl : s.isLoading = false) :
    (handleConfirmationResponse s choice f r).2
      = [{ message := sentConfirmationText choice, conversation_id := s.conversationId }] := by
  unfold handleConfirmationResponse
  rw [if_neg (by simp [hnl])]
  cases r with
  | success data => simp
  | httpError st => simp
  | networkError => simp

/-- A non-blocked `handleConfirmationResponse` appends the displayed user
message first, whatever the outcome. -/
theorem confirmationResponse_messages_shape (s : ChatState) (choice : ConfirmChoice)
    (f : Fresh) (r : GatewayResult) (hnl : s.isLoading = false) :
    ∃ rest, (handleConfirmationResponse s choice f r).1.messages
      = s.messages ++
          ({ id := f.userId, role := Role.user, content := displayedConfirmationText choice,
             timestamp := f.userTime } :: rest) := by
  unfold handleConfirmationResponse
  rw [if_neg (by simp [hnl])]
  cases r with
  | success data =>
    refine ⟨[{ id := f.assistantId, role := Role.assistant, content := data.response,
               timestamp := f.assistantTime }], ?_⟩
    by_cases hc : data.confirmed <;> simp [hc]
  | httpError st => exact ⟨[], by simp⟩
  | networkError => exact ⟨[], by simp⟩

/-! ### Claims -/

/-- Claim C5: submitting empty or whitespace-only text, or submitting while a
request is in flight, is a no-op: no message is appended, the gateway is not
called, and no state component changes. -/
theorem submit_blank_or_inflight_noop (s : ChatState) (text : String) (f : Fresh)
    (r : GatewayResult) (h : jsTrim text = "" ∨ s.isLoading = true) :
    handleSendMessage s text f r = (s, []) := by
  unfold handleSendMessage
  simp [h]

/-- Witness for C5: whitespace-only input on the initial state. -/
theorem submit_blank_or_inflight_noop_witness :
    handleSendMessage (initialState "g0" 0) "   " ⟨"u1", "a1", 1, 2⟩ GatewayResult.networkError
      = (initialState "g0" 0, []) :=
  submit_blank_or_inflight_noop (initialState "g0" 0) "   " ⟨"u1", "a1", 1, 2⟩
    GatewayResult.networkError (Or.inl (by decide))

/-- Claim C6: `handleStartNewConversation` (reset) produces a state with
exactly one message — the greeting with the freshly generated identifier and
the current timestamp — a `none` conversation identifier, and mode composing. -/
theorem reset_yields_single_greeting (s : ChatState) (newId : String) (newTime : Nat) :
    (handleStartNewConversation s newId newTime).messages = [initialMessage newId newTime] ∧
    (handleStartNewConversation s newId newTime).conversationId = none ∧
    (handleStartNewConversation s newId newTime).mode = Mode.composing :=
  ⟨rfl, rfl, rfl⟩

/-- Claim C3: when the gateway call of a non-blocked submit fails (rejected
fetch or non-2xx status), exactly one assistant message with the fixed error
text is appended after the user message, the mode flags and the conversation
identifier are unchanged, and the in-flight flag ends false. -/
theorem submit_failure_behaviour (s : ChatState) (text : String) (f : Fresh)
    (r : GatewayResult) (hns : ¬ jsTrim text = "") (hnl : s.isLoading = false)
    (hf : r.failed = true) :
    (handleSendMessage s text f r).1.messages
        = s.messages ++
            [{ id := f.userId, role := Role.user, content := jsTrim text,
               timestamp := f.userTime },
             { id := f.assistantId, role := Role.assistant, content := connectionErrorText,
               timestamp := f.assistantTime }] ∧
    (handleSendMessage s text f r).1.isConfirmed = s.isConfirmed ∧
    (handleSendMessage s text f r).1.isAwaitingConfirmation = s.isAwaitingConfirmation ∧
    (handleSendMessage s text f r).1.conversationId = s.conversationId ∧
    (handleSendMessage s text f r).1.isLoading = false ∧
    (handleSendMessage s text f r).2
        = [{ message := jsTrim text, conversation_id := s.conversationId }] := by
  have hcond := sendMessage_guard_false hns hnl
  cases r with
  | success data => simp [GatewayResult.failed] at hf
  | httpError st => unfold handleSendMessage; rw [if_neg hcond]; simp
  | networkError => unfold handleSendMessage; rw [if_neg hcond]; simp

/-- Witness for C3: failing submit from the initial state leaves the
conversation identifier `none` and the in-flight flag false. -/
theorem submit_failure_behaviour_witness :
    (handleSendMessage (initialState "g0" 0) "hi" ⟨"u1", "a1", 1, 2⟩
        GatewayResult.networkError).1.conversationId = (initialState "g0" 0).conversationId ∧
    (handleSendMessage (initialState "g0" 0) "hi" ⟨"u1", "a1", 1, 2⟩
        GatewayResult.networkError).1.isLoading = false :=
  ⟨(submit_failure_behaviour (initialState "g0" 0) "hi" ⟨"u1", "a1", 1, 2⟩
      GatewayResult.networkError (by decide) rfl rfl).2.2.2.1,
   (submit_failure_behaviour (initialState "g0" 0) "hi" ⟨"u1", "a1", 1, 2⟩
      GatewayResult.networkError (by decide) rfl rfl).2.2.2.2.1⟩

/-- Claim C10: for the non-affirmative confirmation choice the appended user
message reads "No, let me change something" while the gateway is sent the
different string "I want to change something"; for the affirmative choice the
display is "Yes" while "yes" is sent. -/
theorem confirmation_displayed_vs_sent (s : ChatState) (f : Fresh) (r : GatewayResult)
    (hnl : s.isLoading = false) :
    ((handleConfirmationResponse s ConfirmChoice.no f r).2
        = [{ message := "I want to change something", conversation_id := s.conversationId }] ∧
      ∃ rest, (handleConfirmationResponse s ConfirmChoice.no f r).1.messages
        = s.messages ++
            ({ id := f.userId, role := Role.user, content := "No, let me change something",
               timestamp := f.userTime } :: rest)) ∧
    ((handleConfirmationResponse s ConfirmChoice.yes f r).2
        = [{ message := "yes", conversation_id := s.conversationId }] ∧
      ∃ rest, (handleConfirmationResponse s ConfirmChoice.yes f r).1.messages
        = s.messages ++
            ({ id := f.userId, role := Role.user, content := "Yes",
               timestamp := f.userTime } :: rest)) := by
  refine ⟨⟨?_, ?_⟩, ?_, ?_⟩
  · simpa [sentConfirmationText] using confirmationResponse_call_eq s ConfirmChoice.no f r hnl
  · simpa [displayedConfirmationText] using
      confirmationResponse_messages_shape s ConfirmChoice.no f r hnl
  · simpa [sentConfirmationText] using confirmationResponse_call_eq s ConfirmChoice.yes f r hnl
  · simpa [displayedConfirmationText] using
      confirmationResponse_messages_shape s ConfirmChoice.yes f r hnl

/-- Witness for C10: the "no" choice from the initial state sends
"I want to change something". -/
theorem confirmation_displayed_vs_sent_witness :
    (handleConfirmationResponse (initialState "g0" 0) ConfirmChoice.no ⟨"u1", "a1", 1, 2⟩
        GatewayResult.networkError).2
      = [{ message := "I want to change something", conversation_id := none }] :=
  (confirmation_displayed_vs_sent (initialState "g0" 0) ⟨"u1", "a1", 1, 2⟩
      GatewayResult.networkError rfl).1.1

/-- `handleConfirmationResponse` never touches the conversation identifier. -/
theorem confirmationResponse_conversationId (s : ChatState) (choice : ConfirmChoice)
    (f : Fresh) (r : GatewayResult) :
    (handleConfirmationResponse s choice f r).1.conversationId = s.conversationId := by
  unfold handleConfirmationResponse
  by_cases hl : s.isLoading = true
  · rw [if_pos hl]
  · rw [if_neg hl]
    cases r with
    | success data => by_cases hc : data.confirmed <;> simp [hc]
    | httpError st => simp
    | networkError => simp

/-- Flag outcome of a non-blocked submit on a successful reply. -/
theorem sendMessage_flags_success (s : ChatState) (text : String) (f : Fresh)
    (data : ChatReply) (hns : ¬ jsTrim text = "") (hnl : s.isLoading = false) :
    (handleSendMessage s text f (GatewayResult.success data)).1.isConfirmed
        = (if data.confirmed then true else s.isConfirmed) ∧
    (handleSendMessage s text f (GatewayResult.success data)).1.isAwaitingConfirmation
        = (if data.confirmed then false else data.awaiting_confirmation) := by
  have hcond := sendMessage_guard_false hns hnl
  unfold handleSendMessage
  rw [if_neg hcond]
  by_cases htr : truthy data.conversation_id <;>
    by_cases hc : data.confirmed <;>
    by_cases ha : data.awaiting_confirmation <;>
    simp [htr, hc, ha]

/-- Flag outcome of a non-blocked confirmation response on a successful reply:
the same rule as `sendMessage_flags_success`. -/
theorem confirmationResponse_flags_success (s : ChatState) (choice : ConfirmChoice)
    (f : Fresh) (data : ChatReply) (hnl : s.isLoading = false) :
    (handleConfirmationResponse s choice f (GatewayResult.success data)).1.isConfirmed
        = (if data.confirmed then true else s.isConfirmed) ∧
    (handleConfirmationResponse s choice f (GatewayResult.success data)).1.isAwaitingConfirmation
        = (if data.confirmed then false else data.awaiting_confirmation) := by
  unfold handleConfirmationResponse
  rw [if_neg (by simp [hnl])]
  by_cases hc : data.confirmed <;> simp [hc]

/-- A failed submit leaves both mode flags as they were (this also covers the
no-op guard branch). -/
theorem sendMessage_flags_failed (s : ChatState) (text : String) (f : Fresh)
    (r : GatewayResult) (hf : r.failed = true) :
    (handleSendMessage s text f r).1.isConfirmed = s.isConfirmed ∧
    (handleSendMessage s text f r).1.isAwaitingConfirmation = s.isAwaitingConfirmation := by
  unfold handleSendMessage
  by_cases hcond : (jsTrim text = "" ∨ s.isLoading = true)
  · rw [if_pos hcond]
    exact ⟨rfl, rfl⟩
  · rw [if_neg hcond]
    cases r with
    | success data => simp [GatewayResult.failed] at hf
    | httpError st => simp
    | networkError => simp

/-- A failed confirmation response leaves both mode flags as they were. -/
theorem confirmationResponse_flags_failed (s : ChatState) (choice : ConfirmChoice)
    (f : Fresh) (r : GatewayResult) (hf : r.failed = true) :
    (handleConfirmationResponse s choice f r).1.isConfirmed = s.isConfirmed ∧
    (handleConfirmationResponse s choice f r).1.isAwaitingConfirmation
        = s.isAwaitingConfirmation := by
  unfold handleConfirmationResponse
  by_cases hl : s.isLoading = true
  · rw [if_pos hl]
    exact ⟨rfl, rfl⟩
  · rw [if_neg hl]
    cases r with
    | success data => simp [GatewayResult.failed] at hf
    | httpError st => simp
    | networkError => simp

/-- Message-list outcome of a non-blocked confirmation response on success. -/
theorem confirmationResponse_messages_success (s : ChatState) (choice : ConfirmChoice)
    (f : Fresh) (data : ChatReply) (hnl : s.isLoading = false) :
    (handleConfirmationResponse s choice f (GatewayResult.success data)).1.messages
      = s.messages ++
          [{ id := f.userId, role := Role.user, content := displayedConfirmationText choice,
             timestamp := f.userTime },
           { id := f.assistantId, role := Role.assistant, content := data.response,
             timestamp := f.assistantTime }] := by
  unfold handleConfirmationResponse
  rw [if_neg (by simp [hnl])]
  by_cases hc : data.confirmed <;> simp [hc]

/-- Message-list outcome of a non-blocked confirmation response on failure:
only the user message is appended, no error message. -/
theorem confirmationResponse_messages_failed (s : ChatState) (choice : ConfirmChoice)
    (f : Fresh) (r : GatewayResult) (hnl : s.isLoading = false) (hf : r.failed = true) :
    (handleConfirmationResponse s choice f r).1.messages
      = s.messages ++
          [{ id := f.userId, role := Role.user, content := displayedConfirmationText choice,
             timestamp := f.userTime }] := by
  unfold handleConfirmationResponse
  rw [if_neg (by simp [hnl])]
  cases r with
  | success data => simp [GatewayResult.failed] at hf
  | httpError st => simp
  | networkError => simp

/-- Claim C2: for a successful reply to a non-blocked submit, the resulting
mode follows the reply's flags with `confirmed` taking precedence:
`confirmed: true` yields mode confirmed whatever the reply's
`awaiting_confirmation` value and whatever the prior mode; a reply with
neither flag set yields mode composing (stated for states whose composing
footer is rendered — the only states from which `handleSendMessage` can be
triggered in the UI). -/
theorem submit_success_mode (s : ChatState) (text : String) (f : Fresh) (data : ChatReply)
    (hns : ¬ jsTrim text = "") (hnl : s.isLoading = false) :
    (data.confirmed = true →
      (handleSendMessage s text f (GatewayResult.success data)).1.mode = Mode.confirmed) ∧
    (inputRendered s = true → data.confirmed = false → data.awaiting_confirmation = false →
      (handleSendMessage s text f (GatewayResult.success data)).1.mode = Mode.composing) := by
  obtain ⟨hfc, hfa⟩ := sendMessage_flags_success s text f data hns hnl
  constructor
  · intro hc
    rw [hc] at hfc hfa
    simp only [if_pos rfl] at hfc hfa
    simp [ChatState.mode, hfc]
  · intro hrend hc ha
    have hsc : s.isConfirmed = false := by
      simp [inputRendered] at hrend
      exact hrend.1
    rw [hc] at hfc hfa
    simp only [if_neg Bool.false_ne_true] at hfc hfa
    simp [ChatState.mode, hfc, hfa, hsc, ha]

/-- Witness for C2: a reply with both flags set, arriving in the initial
state, ends in mode confirmed. -/
theorem submit_success_mode_witness :
    (handleSendMessage (initialState "g0" 0) "hi" ⟨"u1", "a1", 1, 2⟩
        (GatewayResult.success { response := "ok", conversation_id := some "c1", confirmed := true, awaiting_confirmation := true })).1.mode = Mode.confirmed :=
  (submit_success_mode (initialState "g0" 0) "hi" ⟨"u1", "a1", 1, 2⟩
      { response := "ok", conversation_id := some "c1", confirmed := true, awaiting_confirmation := true }
      (by decide) rfl).1 rfl

/-- Claim C9: within a conversation session the message list is append-only:
every application of `handleSendMessage` or `handleConfirmationResponse`,
whatever the reply or failure, extends the previous list, so every existing
message keeps its identifier, role, content and timestamp at its position. -/
theorem messages_append_only (s : ChatState) (text : String) (choice : ConfirmChoice)
    (f : Fresh) (r : GatewayResult) :
    (∃ tail1, (handleSendMessage s text f r).1.messages = s.messages ++ tail1) ∧
    (∃ tail2, (handleConfirmationResponse s choice f r).1.messages = s.messages ++ tail2) := by
  constructor
  · unfold handleSendMessage
    by_cases hcond : (jsTrim text = "" ∨ s.isLoading = true)
    · refine ⟨[], ?_⟩
      rw [if_pos hcond]
      simp
    · rw [if_neg hcond]
      cases r with
      | success data =>
        refine ⟨[{ id := f.userId, role := Role.user, content := jsTrim text,
                   timestamp := f.userTime },
                 { id := f.assistantId, role := Role.assistant, content := data.response,
                   timestamp := f.assistantTime }], ?_⟩
        by_cases htr : truthy data.conversation_id <;>
          by_cases hc : data.confirmed <;>
          by_cases ha : data.awaiting_confirmation <;>
          simp [htr, hc, ha]
      | httpError st =>
        exact ⟨[{ id := f.userId, role := Role.user, content := jsTrim text,
                  timestamp := f.userTime },
                { id := f.assistantId, role := Role.assistant, content := connectionErrorText,
                  timestamp := f.assistantTime }], by simp⟩
      | networkError =>
        exact ⟨[{ id := f.userId, role := Role.user, content := jsTrim text,
                  timestamp := f.userTime },
                { id := f.assistantId, role := Role.assistant, content := connectionErrorText,
                  timestamp := f.assistantTime }], by simp⟩
  · by_cases hl : s.isLoading = true
    · refine ⟨[], ?_⟩
      unfold handleConfirmationResponse
      rw [if_pos hl]
      simp
    · have hnl : s.isLoading = false := by simpa using hl
      obtain ⟨rest, hrest⟩ := confirmationResponse_messages_shape s choice f r hnl
      exact ⟨_, hrest⟩

/-- A concrete awaiting-confirmation state: the initial state after the
backend requested confirmation. -/
def cexAwaitingState : ChatState :=
  { initialState "g0" 0 with isAwaitingConfirmation := true }

/-- Counterexample to claim C1 as stated: on one same backend reply carrying
a conversation identifier, `handleConfirmationResponse` leaves the stored
identifier untouched while `handleSendMessage` stores the supplied one; and
on one same transport failure `handleConfirmationResponse` appends no
assistant error message (only the user choice is added, one message) while
`handleSendMessage` appends the fixed error text (two messages added). -/
theorem confirmation_differs_from_submit :
    (handleConfirmationResponse cexAwaitingState ConfirmChoice.yes ⟨"u1", "a1", 1, 2⟩
        (GatewayResult.success { response := "done", conversation_id := some "abc", confirmed := true, awaiting_confirmation := false })).1.conversationId
      = none ∧
    (handleSendMessage cexAwaitingState "yes" ⟨"u1", "a1", 1, 2⟩
        (GatewayResult.success { response := "done", conversation_id := some "abc", confirmed := true, awaiting_confirmation := false })).1.conversationId
      = some "abc" ∧
    (handleConfirmationResponse cexAwaitingState ConfirmChoice.yes ⟨"u1", "a1", 1, 2⟩
        GatewayResult.networkError).1.messages.length = 2 ∧
    (handleSendMessage cexAwaitingState "yes" ⟨"u1", "a1", 1, 2⟩
        GatewayResult.networkError).1.messages.length = 3 := by
  refine ⟨?_, ?_, ?_, ?_⟩ <;> decide

/-- Claim C1 (amended): for every backend reply and transport failure, a
non-blocked `handleConfirmationResponse` sets the mode flags from the
reply's `confirmed` / `awaiting_confirmation` flags exactly as
`handleSendMessage` does, and on success appends the assistant message built
from the reply text after the user message; but, unlike `handleSendMessage`,
it never updates the conversation identifier, and on transport failure or
non-2xx status it appends no assistant error message — the user choice
message is the only addition. -/
theorem confirmation_response_rule (s : ChatState) (choice : ConfirmChoice) (f : Fresh)
    (r : GatewayResult) (hnl : s.isLoading = false) :
    ((handleConfirmationResponse s choice f r).1.conversationId = s.conversationId) ∧
    ((handleConfirmationResponse s choice f r).1.isConfirmed
        = (handleSendMessage s "yes" f r).1.isConfirmed) ∧
    ((handleConfirmationResponse s choice f r).1.isAwaitingConfirmation
        = (handleSendMessage s "yes" f r).1.isAwaitingConfirmation) ∧
    (∀ data, r = GatewayResult.success data →
      (handleConfirmationResponse s choice f r).1.messages
        = s.messages ++
            [{ id := f.userId, role := Role.user, content := displayedConfirmationText choice,
               timestamp := f.userTime },
             { id := f.assistantId, role := Role.assistant, content := data.response,
               timestamp := f.assistantTime }]) ∧
    (r.failed = true →
      (handleConfirmationResponse s choice f r).1.messages
        = s.messages ++
            [{ id := f.userId, role := Role.user, content := displayedConfirmationText choice,
               timestamp := f.userTime }]) := by
  have hys : ¬ jsTrim "yes" = "" := by decide
  refine ⟨confirmationResponse_conversationId s choice f r, ?_, ?_, ?_, ?_⟩
  · cases r with
    | success data =>
      rw [(confirmationResponse_flags_success s choice f data hnl).1,
          (sendMessage_flags_success s "yes" f data hys hnl).1]
    | httpError st =>
      rw [(confirmationResponse_flags_failed s choice f (GatewayResult.httpError st) rfl).1,
          (sendMessage_flags_failed s "yes" f (GatewayResult.httpError st) rfl).1]
    | networkError =>
      rw [(confirmationResponse_flags_failed s choice f GatewayResult.networkError rfl).1,
          (sendMessage_flags_failed s "yes" f GatewayResult.networkError rfl).1]
  · cases r with
    | success data =>
      rw [(confirmationResponse_flags_success s choice f data hnl).2,
          (sendMessage_flags_success s "yes" f data hys hnl).2]
    | httpError st =>
      rw [(confirmationResponse_flags_failed s choice f (GatewayResult.httpError st) rfl).2,
          (sendMessage_flags_failed s "yes" f (GatewayResult.httpError st) rfl).2]
    | networkError =>
      rw [(confirmationResponse_flags_failed s choice f GatewayResult.networkError rfl).2,
          (sendMessage_flags_failed s "yes" f GatewayResult.networkError rfl).2]
  · intro data hdata
    subst hdata
    exact confirmationResponse_messages_success s choice f data hnl
  · intro hf
    exact confirmationResponse_messages_failed s choice f r hnl hf

/-- Witness for the amended C1: the conversation identifier survives a failed
confirmation round-trip from a concrete awaiting state. -/
theorem confirmation_response_rule_witness :
    (handleConfirmationResponse cexAwaitingState ConfirmChoice.no ⟨"u1", "a1", 1, 2⟩
        GatewayResult.networkError).1.conversationId = cexAwaitingState.conversationId :=
  (confirmation_response_rule cexAwaitingState ConfirmChoice.no ⟨"u1", "a1", 1, 2⟩
      GatewayResult.networkError rfl).1

/-- Counterexample to claim C4 as stated: in the initial state — mode
composing, no request in flight — `handleConfirmationResponse` is not a
no-op: it issues a gateway call and appends the user choice message. -/
theorem confirmation_not_guarded_by_mode :
    (initialState "g0" 0).mode = Mode.composing ∧
    (handleConfirmationResponse (initialState "g0" 0) ConfirmChoice.yes ⟨"u1", "a1", 1, 2⟩
        GatewayResult.networkError).2
      = [{ message := "yes", conversation_id := none }] ∧
    (handleConfirmationResponse (initialState "g0" 0) ConfirmChoice.yes ⟨"u1", "a1", 1, 2⟩
        GatewayResult.networkError).1.messages.length = 2 := by
  refine ⟨rfl, ?_, ?_⟩ <;> decide

/-- Claim C4 (amended): the handler itself guards only on the in-flight flag:
while a request is in flight, `handleConfirmationResponse` has no effect —
it appends no message, issues no gateway call, and leaves the whole state
unchanged.  Validity outside awaiting-confirmation mode is enforced by the
UI instead: the confirmation buttons are rendered exactly when the mode is
awaiting-confirmation, so the handler cannot be triggered in other modes. -/
theorem confirmation_inflight_noop (s : ChatState) (choice : ConfirmChoice) (f : Fresh)
    (r : GatewayResult) (hl : s.isLoading = true) :
    handleConfirmationResponse s choice f r = (s, []) ∧
    (∀ s2 : ChatState, confirmationButtonsRendered s2 = true
        → s2.mode = Mode.awaitingConfirmation) := by
  constructor
  · unfold handleConfirmationResponse
    rw [if_pos hl]
  · intro s2 h2
    simp [confirmationButtonsRendered] at h2
    simp [ChatState.mode, h2.1, h2.2]

/-- Witness for the amended C4: a loading state is left untouched. -/
theorem confirmation_inflight_noop_witness :
    handleConfirmationResponse { initialState "g0" 0 with isLoading := true }
        ConfirmChoice.yes ⟨"u1", "a1", 1, 2⟩ GatewayResult.networkError
      = ({ initialState "g0" 0 with isLoading := true }, []) :=
  (confirmation_inflight_noop { initialState "g0" 0 with isLoading := true }
      ConfirmChoice.yes ⟨"u1", "a1", 1, 2⟩ GatewayResult.networkError rfl).1

/-- A state's mode decodes to confirmed exactly when `isConfirmed` is set. -/
theorem mode_confirmed_iff (s : ChatState) :
    s.mode = Mode.confirmed ↔ s.isConfirmed = true := by
  unfold ChatState.mode
  by_cases hc : s.isConfirmed = true
  · simp [hc]
  · by_cases ha : s.isAwaitingConfirmation = true <;> simp [hc, ha]

/-- A submit from a state with `isConfirmed` unset never sets both flags. -/
theorem sendMessage_not_both (s : ChatState) (text : String) (f : Fresh) (r : GatewayResult)
    (hc : s.isConfirmed = false) :
    ((handleSendMessage s text f r).1.isConfirmed
        && (handleSendMessage s text f r).1.isAwaitingConfirmation) = false := by
  unfold handleSendMessage
  by_cases hcond : (jsTrim text = "" ∨ s.isLoading = true)
  · rw [if_pos hcond]
    simp [hc]
  · rw [if_neg hcond]
    cases r with
    | success data =>
      by_cases htr : truthy data.conversation_id <;>
        by_cases hcf : data.confirmed <;>
        by_cases ha : data.awaiting_confirmation <;>
        simp [htr, hcf, ha, hc]
    | httpError st => simp [hc]
    | networkError => simp [hc]

/-- A confirmation response from a state with `isConfirmed` unset never sets
both flags. -/
theorem confirmationResponse_not_both (s : ChatState) (choice : ConfirmChoice) (f : Fresh)
    (r : GatewayResult) (hc : s.isConfirmed = false) :
    ((handleConfirmationResponse s choice f r).1.isConfirmed
        && (handleConfirmationResponse s choice f r).1.isAwaitingConfirmation) = false := by
  unfold handleConfirmationResponse
  by_cases hl : s.isLoading = true
  · rw [if_pos hl]
    simp [hc]
  · rw [if_neg hl]
    cases r with
    | success data => by_cases hcf : data.confirmed <;> simp [hcf, hc]
    | httpError st => simp [hc]
    | networkError => simp [hc]

/-- The footer renders exactly one of its three views in every state. -/
theorem footer_exclusive (s : ChatState) :
    (confirmedFooterRendered s).toNat + (confirmationButtonsRendered s).toNat
      + (inputRendered s).toNat = 1 := by
  unfold confirmedFooterRendered confirmationButtonsRendered inputRendered
  cases hc : s.isConfirmed <;> cases ha : s.isAwaitingConfirmation <;> rfl

/-- In every reachable state the two flags are never both set. -/
theorem reachable_not_both (s : ChatState) (h : Reachable s) :
    (s.isConfirmed && s.isAwaitingConfirmation) = false := by
  induction h with
  | init id t => rfl
  | step s s2 hr hstep ih =>
    cases hstep with
    | submit text f r hrend =>
      apply sendMessage_not_both
      simp [inputRendered] at hrend
      exact hrend.1
    | respond choice f r hrend =>
      apply confirmationResponse_not_both
      simp [confirmationButtonsRendered] at hrend
      exact hrend.1
    | reset id t => rfl

/-- Claim C7: in every state reachable from the initial state by the
user-triggerable operations, exactly one of the three footer views
(composing input, confirmation buttons, confirmed view) is rendered, and in
the two-flag encoding `isConfirmed` and `isAwaitingConfirmation` are never
both true. -/
theorem reachable_mode_exclusive (s : ChatState) (h : Reachable s) :
    ((s.isConfirmed && s.isAwaitingConfirmation) = false) ∧
    ((confirmedFooterRendered s).toNat + (confirmationButtonsRendered s).toNat
        + (inputRendered s).toNat = 1) :=
  ⟨reachable_not_both s h, footer_exclusive s⟩

/-- Witness for C7 at the initial state. -/
theorem reachable_mode_exclusive_witness :
    (((initialState "g0" 0).isConfirmed && (initialState "g0" 0).isAwaitingConfirmation)
        = false) ∧
    ((confirmedFooterRendered (initialState "g0" 0)).toNat
        + (confirmationButtonsRendered (initialState "g0" 0)).toNat
        + (inputRendered (initialState "g0" 0)).toNat = 1) :=
  reachable_mode_exclusive (initialState "g0" 0) (Reachable.init "g0" 0)

/-- A submit from a state with `isConfirmed` set leaves it set. -/
theorem sendMessage_keeps_confirmed (s : ChatState) (text : String) (f : Fresh)
    (r : GatewayResult) (hc : s.isConfirmed = true) :
    (handleSendMessage s text f r).1.isConfirmed = true := by
  unfold handleSendMessage
  by_cases hcond : (jsTrim text = "" ∨ s.isLoading = true)
  · rw [if_pos hcond]
    exact hc
  · rw [if_neg hcond]
    cases r with
    | success data =>
      by_cases htr : truthy data.conversation_id <;>
        by_cases hcf : data.confirmed <;>
        by_cases ha : data.awaiting_confirmation <;>
        simp [htr, hcf, ha, hc]
    | httpError st => simp [hc]
    | networkError => simp [hc]

/-- A confirmation response from a state with `isConfirmed` set leaves it set. -/
theorem confirmationResponse_keeps_confirmed (s : ChatState) (choice : ConfirmChoice)
    (f : Fresh) (r : GatewayResult) (hc : s.isConfirmed = true) :
    (handleConfirmationResponse s choice f r).1.isConfirmed = true := by
  unfold handleConfirmationResponse
  by_cases hl : s.isLoading = true
  · rw [if_pos hl]
    exact hc
  · rw [if_neg hl]
    cases r with
    | success data => by_cases hcf : data.confirmed <;> simp [hcf, hc]
    | httpError st => simp [hc]
    | networkError => simp [hc]

/-- Claim C8: from a state in confirmed mode, no submit and no confirmation
response — whatever the reply or failure — changes the mode; only
`handleStartNewConversation` leaves it, restoring composing mode with a
cleared conversation identifier and a single fresh greeting message. -/
theorem confirmed_is_terminal (s : ChatState) (h : s.mode = Mode.confirmed) :
    (∀ (text : String) (f : Fresh) (r : GatewayResult),
      (handleSendMessage s text f r).1.mode = Mode.confirmed) ∧
    (∀ (choice : ConfirmChoice) (f : Fresh) (r : GatewayResult),
      (handleConfirmationResponse s choice f r).1.mode = Mode.confirmed) ∧
    (∀ (newId : String) (newTime : Nat),
      (handleStartNewConversation s newId newTime).mode = Mode.composing ∧
      (handleStartNewConversation s newId newTime).conversationId = none ∧
      (handleStartNewConversation s newId newTime).messages = [initialMessage newId newTime]) := by
  have hc : s.isConfirmed = true := (mode_confirmed_iff s).1 h
  refine ⟨?_, ?_, ?_⟩
  · intro text f r
    exact (mode_confirmed_iff _).2 (sendMessage_keeps_confirmed s text f r hc)
  · intro choice f r
    exact (mode_confirmed_iff _).2 (confirmationResponse_keeps_confirmed s choice f r hc)
  · intro newId newTime
    exact ⟨rfl, rfl, rfl⟩

/-- Witness for C8: a submit with a plain reply from a concrete confirmed
state stays in confirmed mode. -/
theorem confirmed_is_terminal_witness :
    (handleSendMessage { initialState "g0" 0 with isConfirmed := true } "hi" ⟨"u1", "a1", 1, 2⟩
        GatewayResult.networkError).1.mode = Mode.confirmed :=
  (confirmed_is_terminal { initialState "g0" 0 with isConfirmed := true } rfl).1 "hi"
    ⟨"u1", "a1", 1, 2⟩ GatewayResult.networkError
